import Mathlib

/-!
Verification of `preziscrtaker.js`: a shallow embedding of its CLI defaulting,
phase sequence (cookie consent, present button, viewer-ready wait, fullscreen,
first capture, advance loop) and of the sharp cover-fit postprocessor, together
with theorems settling the specification's claims about it.

The browser is modelled as an abstract environment `Env` recording which
selectors appear within their wait bounds and, per loop index, whether the
end-of-deck overlay ("breaker") and the "next" control are present.  A run
produces a trace of effect events plus a termination status; the unbounded
`while (true)` loop is embedded with explicit fuel.
-/

namespace PreziScraper

/-- A JavaScript value as it can arrive from `minimist` argument parsing:
`argv.url` etc. are `undefined` when absent, strings or numbers when given. -/
inductive JsVal where
  | undefined
  | nullV
  | str (s : String)
  | num (n : Int)
  | boolean (b : Bool)
  deriving DecidableEq, Repr

/-- JavaScript truthiness: `undefined`, `null`, `""`, `0` and `false` are falsy. -/
def truthy : JsVal → Bool
  | JsVal.undefined => false
  | JsVal.nullV => false
  | JsVal.str s => decide (s ≠ "")
  | JsVal.num n => decide (n ≠ 0)
  | JsVal.boolean b => b

/-- JavaScript `a || b`: the left operand if truthy, otherwise the right. -/
def jsOr (a b : JsVal) : JsVal := if truthy a then a else b

/-- JavaScript string coercion, as performed by a template literal. -/
def jsToString : JsVal → String
  | JsVal.undefined => "undefined"
  | JsVal.nullV => "null"
  | JsVal.str s => s
  | JsVal.num n => toString n
  | JsVal.boolean b => if b then "true" else "false"

/-- The parsed command-line arguments as `minimist` delivers them. -/
structure Argv where
  url : JsVal
  out : JsVal
  width : JsVal
  height : JsVal

/-- `const prezi = argv.url || null;` -/
def resolvePrezi (argv : Argv) : JsVal := jsOr argv.url JsVal.nullV

/-- `const out = argv.out || 'img';` -/
def resolveOut (v : JsVal) : JsVal := jsOr v (JsVal.str "img")

/-- `const height = argv.height || 842;` -/
def resolveHeight (v : JsVal) : JsVal := jsOr v (JsVal.num 842)

/-- `const width = argv.width || 595;` -/
def resolveWidth (v : JsVal) : JsVal := jsOr v (JsVal.num 595)

/-- `'#onetrust-accept-btn-handler'` -/
def cookieAcceptBtn : String := "#onetrust-accept-btn-handler"

/-- `'.viewer-common-info-overlay-button-small-filled'` -/
def presentDiv : String := ".viewer-common-info-overlay-button-small-filled"

/-- `'.webgl-viewer-navbar-fullscreen-enter-icon'` -/
def fullscr : String := ".webgl-viewer-navbar-fullscreen-enter-icon"

/-- `'.webgl-viewer-navbar-next-icon'` -/
def nxt : String := ".webgl-viewer-navbar-next-icon"

/-- `'.viewer-common-info-overlay-button-label'` -/
def breaker : String := ".viewer-common-info-overlay-button-label"

/-- The user-agent string set on the page. -/
def uaString : String :=
  "Mozilla/5.0 (Windows NT 10.0; Win64; x64) AppleWebKit/537.36 " ++
  "(KHTML, like Gecko) Chrome/115.0.0.0 Safari/537.36"

/-- The message of the error thrown when `--url` is missing. -/
def urlErrorMsg : String := "PREZI NOT FOUND. Please provide --url argument."

/-- `` `${out}/prezi-${n}.png` `` — the output path for slide index `n`. -/
def pngPath (out : JsVal) (n : Nat) : String :=
  jsToString out ++ "/prezi-" ++ toString n ++ ".png"

/-- Abstract behaviour of the file system and of the remote document: which
awaited elements appear within their wait bounds, and at each advance-loop
index whether the end overlay and the next control are present. -/
structure Env where
  outDirExists : Bool
  cookieFound : Bool
  presentFound : Bool
  fullscrFound : Bool
  nextAfterFirst : Bool
  breakerAt : Nat → Bool
  nextAt : Nat → Bool

/-- One observable effect of the script. -/
inductive Event where
  | mkdir (dir : String)
  | launchBrowser
  | setViewport (w h : JsVal) (deviceScaleFactor : Nat)
  | setUserAgent (ua : String)
  | goto (url : JsVal) (timeoutMs : Nat)
  | waitFor (sel : String) (timeoutMs : Option Nat) (found : Bool)
  | click (sel : String)
  | sleep (ms : Nat)
  | capture (path : String)
  | mouseMove (x y : Nat)
  | query (sel : String) (found : Bool)
  | closeBrowser
  | exitProcess (code : Nat)
  deriving DecidableEq, Repr

/-- How a run ends: top-level throw, `process.exit(1)` after the viewer-ready
timeout, unhandled rejection of the unguarded `waitForSelector(nxt)`, normal
completion, or fuel exhaustion of the embedding. -/
inductive Status where
  | thrown (msg : String)
  | exitedViewerTimeout
  | rejectedNextMissing
  | completed
  | fuelOut
  deriving DecidableEq, Repr

/-- The `while (true)` advance loop, entered after the first capture and first
click of `nxt`.  `n` is the value of the counter before the `n++` at the top of
the iteration; each iteration sleeps, checks the breaker overlay (terminating
without capture if present), captures the slide, moves the mouse, checks the
next control (terminating if absent) and otherwise clicks it and repeats. -/
def loopRun (env : Env) (out : JsVal) : Nat → Nat → List Event × Status
  | 0, _ => ([], Status.fuelOut)
  | fuel + 1, n =>
    let pre := [Event.sleep 1800, Event.query breaker (env.breakerAt (n + 1))]
    if env.breakerAt (n + 1) then (pre, Status.completed)
    else
      let cap := [Event.capture (pngPath out (n + 1)), Event.mouseMove 100 100,
                  Event.query nxt (env.nextAt (n + 1))]
      if env.nextAt (n + 1) then
        let rest := loopRun env out fuel (n + 1)
        (pre ++ cap ++ [Event.click nxt] ++ rest.1, rest.2)
      else
        (pre ++ cap, Status.completed)

/-- The whole script: argument resolution and the missing-url throw, directory
creation, browser launch and page setup, the cookie and present best-effort
waits, the fatal viewer-ready wait, fullscreen entry, first capture, the
unguarded wait for `nxt`, the advance loop, and the final `browser.close()`. -/
def run (argv : Argv) (env : Env) (fuel : Nat) : List Event × Status :=
  if truthy (resolvePrezi argv) = false then
    ([], Status.thrown urlErrorMsg)
  else
    let out := resolveOut argv.out
    let mkEvs := if env.outDirExists then [] else [Event.mkdir (jsToString out)]
    let setup := [Event.launchBrowser,
                  Event.setViewport (resolveWidth argv.width) (resolveHeight argv.height) 1,
                  Event.setUserAgent uaString,
                  Event.goto (resolvePrezi argv) 3000000]
    let cookieEvs := Event.waitFor cookieAcceptBtn (some 5000) env.cookieFound ::
                     (if env.cookieFound then [Event.click cookieAcceptBtn] else [])
    let presentEvs := Event.waitFor presentDiv (some 10000) env.presentFound ::
                      (if env.presentFound then [Event.click presentDiv] else [])
    let viewerWait := [Event.waitFor fullscr (some 30000) env.fullscrFound]
    if env.fullscrFound = false then
      (mkEvs ++ setup ++ cookieEvs ++ presentEvs ++ viewerWait ++
         [Event.closeBrowser, Event.exitProcess 1],
       Status.exitedViewerTimeout)
    else
      let firstEvs := [Event.click fullscr, Event.sleep 500,
                       Event.capture (pngPath out 0), Event.mouseMove 100 100,
                       Event.waitFor nxt none env.nextAfterFirst]
      if env.nextAfterFirst = false then
        (mkEvs ++ setup ++ cookieEvs ++ presentEvs ++ viewerWait ++ firstEvs,
         Status.rejectedNextMissing)
      else
        let loop := loopRun env out fuel 0
        let closeEvs := if loop.2 = Status.completed then [Event.closeBrowser] else []
        (mkEvs ++ setup ++ cookieEvs ++ presentEvs ++ viewerWait ++ firstEvs ++
           [Event.click nxt] ++ loop.1 ++ closeEvs,
         loop.2)

/-- The destination paths of the screenshots written during a trace, in order. -/
def capturedPaths (evs : List Event) : List String :=
  evs.filterMap fun e =>
    match e with
    | Event.capture p => some p
    | _ => none

/-- How many times the browser resource was released during a trace. -/
def closeCount (evs : List Event) : Nat :=
  (evs.filter fun e =>
    match e with
    | Event.closeBrowser => true
    | _ => false).length

/-- Whatever the environment does, the advance loop starting after index `n`
captures exactly the consecutive indices `n+1, n+2, …` for some length `m`. -/
theorem loopRun_capturedPaths_range (env : Env) (out : JsVal) :
    ∀ fuel n, ∃ m, capturedPaths (loopRun env out fuel n).1 =
      (List.range m).map (fun j => pngPath out (n + j + 1)) := by
  intro fuel
  induction fuel with
  | zero =>
    intro n
    exact ⟨0, by simp [loopRun, capturedPaths]⟩
  | succ fuel ih =>
    intro n
    by_cases hb : env.breakerAt (n + 1)
    · exact ⟨0, by simp [loopRun, hb, capturedPaths]⟩
    · by_cases hn : env.nextAt (n + 1)
      · obtain ⟨m, hm⟩ := ih (n + 1)
        refine ⟨m + 1, ?_⟩
        rw [List.range_succ_eq_map]
        simp only [loopRun, hb, hn]
        simp only [capturedPaths] at hm
        simp [capturedPaths, List.filterMap_append, hm, List.map_map]
        intro a _
        congr 1
        omega
      · refine ⟨1, ?_⟩
        simp [loopRun, hb, hn, capturedPaths, List.range_succ]
/-- If the breaker never shows through index `n+m+1`, the next control is
present strictly before index `n+m+1` and absent at it, then with enough fuel
the loop captures exactly indices `n+1 … n+m+1` and completes normally. -/
theorem loopRun_stops (env : Env) (out : JsVal) :
    ∀ m n fuel, m + 1 ≤ fuel →
      (∀ i, n + 1 ≤ i → i ≤ n + m + 1 → env.breakerAt i = false) →
      (∀ i, n + 1 ≤ i → i < n + m + 1 → env.nextAt i = true) →
      env.nextAt (n + m + 1) = false →
      capturedPaths (loopRun env out fuel n).1 =
          (List.range (m + 1)).map (fun j => pngPath out (n + j + 1)) ∧
        (loopRun env out fuel n).2 = Status.completed := by
  intro m
  induction m with
  | zero =>
    intro n fuel hfuel hbr hnx hlast
    obtain ⟨f, rfl⟩ : ∃ f, fuel = f + 1 := ⟨fuel - 1, by omega⟩
    have hb : env.breakerAt (n + 1) = false := hbr (n + 1) (by omega) (by omega)
    have hn : env.nextAt (n + 1) = false := by
      have : n + 0 + 1 = n + 1 := by omega
      rw [this] at hlast
      exact hlast
    simp [loopRun, hb, hn, capturedPaths, List.range_succ]
  | succ m ih =>
    intro n fuel hfuel hbr hnx hlast
    obtain ⟨f, rfl⟩ : ∃ f, fuel = f + 1 := ⟨fuel - 1, by omega⟩
    have hb : env.breakerAt (n + 1) = false := hbr (n + 1) (by omega) (by omega)
    have hn : env.nextAt (n + 1) = true := hnx (n + 1) (by omega) (by omega)
    have ihm := ih (n + 1) f (by omega)
      (fun i h1 h2 => hbr i (by omega) (by omega))
      (fun i h1 h2 => hnx i (by omega) (by omega))
      (by have : n + 1 + m + 1 = n + (m + 1) + 1 := by omega
          rw [this]
          exact hlast)
    constructor
    · rw [List.range_succ_eq_map]
      simp only [loopRun, hb, hn]
      simp only [capturedPaths] at ihm ⊢
      simp [List.filterMap_append, ihm.1, List.map_map]
      intro a _
      congr 1
      omega
    · simp only [loopRun, hb, hn]
      simp [ihm.2]

/-- The status of a run, by case on the three fatal conditions. -/
theorem run_snd (argv : Argv) (env : Env) (fuel : Nat) :
    (run argv env fuel).2 =
      if truthy (resolvePrezi argv) = false then Status.thrown urlErrorMsg
      else if env.fullscrFound = false then Status.exitedViewerTimeout
      else if env.nextAfterFirst = false then Status.rejectedNextMissing
      else (loopRun env (resolveOut argv.out) fuel 0).2 := by
  simp only [run]
  split
  · rfl
  · split
    · rfl
    · split
      · rfl
      · rfl

/-- The screenshots a run writes: none before the viewer is ready, the first
capture at index 0 once it is, then whatever the advance loop captures. -/
theorem run_capturedPaths (argv : Argv) (env : Env) (fuel : Nat) :
    capturedPaths (run argv env fuel).1 =
      if truthy (resolvePrezi argv) = false then []
      else if env.fullscrFound = false then []
      else pngPath (resolveOut argv.out) 0 ::
        (if env.nextAfterFirst = false then []
         else capturedPaths (loopRun env (resolveOut argv.out) fuel 0).1) := by
  simp only [run]
  split
  · simp [capturedPaths]
  · split
    · cases hd : env.outDirExists <;> cases hc : env.cookieFound <;>
        cases hp : env.presentFound <;>
        simp [capturedPaths, List.filterMap_append, hd, hc, hp]
    · split
      · cases hd : env.outDirExists <;> cases hc : env.cookieFound <;>
          cases hp : env.presentFound <;>
          simp [capturedPaths, List.filterMap_append, hd, hc, hp]
      · by_cases hcl : (loopRun env (resolveOut argv.out) fuel 0).2 = Status.completed <;>
          cases hd : env.outDirExists <;> cases hc : env.cookieFound <;>
          cases hp : env.presentFound <;>
          simp [capturedPaths, List.filterMap_append, hd, hc, hp, hcl]

/-- The advance loop never releases the browser itself. -/
theorem loopRun_closeCount (env : Env) (out : JsVal) :
    ∀ fuel n, closeCount (loopRun env out fuel n).1 = 0 := by
  intro fuel
  induction fuel with
  | zero => intro n; simp [loopRun, closeCount]
  | succ fuel ih =>
    intro n
    by_cases hb : env.breakerAt (n + 1)
    · simp [loopRun, hb, closeCount]
    · by_cases hn : env.nextAt (n + 1)
      · have := ih (n + 1)
        simp only [closeCount] at this ⊢
        simp [loopRun, hb, hn, List.filter_append, this]
      · simp [loopRun, hb, hn, closeCount]

/-- How many times a run releases the browser: never before launch, exactly
once on the viewer-ready abort, never on the unhandled next-wait rejection,
and exactly once more than the loop does when the loop completes. -/
theorem run_closeCount (argv : Argv) (env : Env) (fuel : Nat) :
    closeCount (run argv env fuel).1 =
      if truthy (resolvePrezi argv) = false then 0
      else if env.fullscrFound = false then 1
      else if env.nextAfterFirst = false then 0
      else if (loopRun env (resolveOut argv.out) fuel 0).2 = Status.completed then 1
      else 0 := by
  simp only [run]
  split
  · simp [closeCount]
  · split
    · cases hd : env.outDirExists <;> cases hc : env.cookieFound <;>
        cases hp : env.presentFound <;>
        simp [closeCount, List.filter_append, hd, hc, hp]
    · split
      · cases hd : env.outDirExists <;> cases hc : env.cookieFound <;>
          cases hp : env.presentFound <;>
          simp [closeCount, List.filter_append, hd, hc, hp]
      · have hl := loopRun_closeCount env (resolveOut argv.out) fuel 0
        simp only [closeCount] at hl
        by_cases hcl : (loopRun env (resolveOut argv.out) fuel 0).2 = Status.completed <;>
          cases hd : env.outDirExists <;> cases hc : env.cookieFound <;>
          cases hp : env.presentFound <;>
          simp [closeCount, List.filter_append, hd, hc, hp, hcl, hl]

/-- The only control the advance loop ever clicks is the next icon. -/
theorem loopRun_click_ne (env : Env) (out : JsVal) (s : String) (hs : s ≠ nxt) :
    ∀ fuel n, Event.click s ∉ (loopRun env out fuel n).1 := by
  intro fuel
  induction fuel with
  | zero => intro n; simp [loopRun]
  | succ fuel ih =>
    intro n
    by_cases hb : env.breakerAt (n + 1)
    · simp [loopRun, hb]
    · by_cases hn : env.nextAt (n + 1)
      · simp [loopRun, hb, hn, ih (n + 1), hs]
      · simp [loopRun, hb, hn]

/-- Which controls other than the fullscreen and next icons a run clicks:
exactly the cookie button when it was found and the present button when it was
found. -/
theorem run_click_iff (argv : Argv) (env : Env) (fuel : Nat)
    (hu : truthy (resolvePrezi argv) = true) (s : String)
    (h1 : s ≠ fullscr) (h2 : s ≠ nxt) :
    Event.click s ∈ (run argv env fuel).1 ↔
      (env.cookieFound = true ∧ s = cookieAcceptBtn) ∨
      (env.presentFound = true ∧ s = presentDiv) := by
  have hl := loopRun_click_ne env (resolveOut argv.out) s h2 fuel 0
  by_cases hcl : (loopRun env (resolveOut argv.out) fuel 0).2 = Status.completed <;>
    cases hf : env.fullscrFound <;> cases hn : env.nextAfterFirst <;>
    cases hd : env.outDirExists <;> cases hc : env.cookieFound <;>
    cases hp : env.presentFound <;>
    simp [run, hu, hf, hn, hd, hc, hp, hcl, h1, h2, hl]

/-- Every run that gets past the missing-url check configures the page
viewport with the resolved width and height and deviceScaleFactor 1. -/
theorem run_mem_setViewport (argv : Argv) (env : Env) (fuel : Nat)
    (hu : truthy (resolvePrezi argv) = true) :
    Event.setViewport (resolveWidth argv.width) (resolveHeight argv.height) 1 ∈
      (run argv env fuel).1 := by
  cases hf : env.fullscrFound <;> cases hn : env.nextAfterFirst <;>
    simp [run, hu, hf, hn]

/-- Every run that gets past the missing-url check creates the output
directory when it does not already exist. -/
theorem run_mem_mkdir (argv : Argv) (env : Env) (fuel : Nat)
    (hu : truthy (resolvePrezi argv) = true) (hd : env.outDirExists = false) :
    Event.mkdir (jsToString (resolveOut argv.out)) ∈ (run argv env fuel).1 := by
  cases hf : env.fullscrFound <;> cases hn : env.nextAfterFirst <;>
    simp [run, hu, hd, hf, hn]

/-- Pixel dimensions of a raster image, over `ℚ` so that cover-fit scale
factors are exact. -/
structure Raster where
  width : ℚ
  height : ℚ

/-- A file written by `sharp(...).toFile(path)`: the destination path, the
raster written there, and the fact that `toFile` replaces an existing file. -/
structure FileWrite where
  path : String
  image : Raster
  overwrite : Bool

/-- The scale factor of sharp's `fit: 'cover'` policy: the source is scaled
uniformly by the larger of the two ratios, so that it fills the target box on
both axes. -/
def coverScale (w h tw th : ℚ) : ℚ := max (tw / w) (th / h)

/-- Dimensions produced by a cover-fit resize to a `tw × th` box: scale the
source by `coverScale`, then center-crop whatever overflows the box. -/
def coverResize (w h tw th : ℚ) : ℚ × ℚ :=
  (min (w * coverScale w h tw th) tw, min (h * coverScale w h tw th) th)

/-- The region of the source that the center crop retains, in source pixels. -/
def coverCropRegion (w h tw th : ℚ) : ℚ × ℚ :=
  (tw / coverScale w h tw th, th / coverScale w h tw th)

/-- `captureCroppedScreenshot`: take the screenshot buffer and write it to
`outputPath` after `sharp(buffer).resize(1280, 720, { fit: 'cover' })`. -/
def captureCroppedScreenshot (shot : Raster) (outputPath : String) : FileWrite :=
  { path := outputPath,
    image := { width := (coverResize shot.width shot.height 1280 720).1,
               height := (coverResize shot.width shot.height 1280 720).2 },
    overwrite := true }

/-- The cover scale factor is positive for a nonempty source and target. -/
theorem coverScale_pos (w h tw th : ℚ) (hw : 0 < w) (htw : 0 < tw) :
    0 < coverScale w h tw th :=
  lt_of_lt_of_le (div_pos htw hw) (le_max_left _ _)

/-- Scaling by the cover factor fills the target box horizontally. -/
theorem le_mul_coverScale_left (w h tw th : ℚ) (hw : 0 < w) :
    tw ≤ w * coverScale w h tw th := by
  have h1 : tw / w ≤ coverScale w h tw th := le_max_left _ _
  have h2 : w * (tw / w) ≤ w * coverScale w h tw th :=
    mul_le_mul_of_nonneg_left h1 (le_of_lt hw)
  calc tw = w * (tw / w) := by field_simp
    _ ≤ w * coverScale w h tw th := h2

/-- Scaling by the cover factor fills the target box vertically. -/
theorem le_mul_coverScale_right (w h tw th : ℚ) (hh : 0 < h) :
    th ≤ h * coverScale w h tw th := by
  have h1 : th / h ≤ coverScale w h tw th := le_max_right _ _
  have h2 : h * (th / h) ≤ h * coverScale w h tw th :=
    mul_le_mul_of_nonneg_left h1 (le_of_lt hh)
  calc th = h * (th / h) := by field_simp
    _ ≤ h * coverScale w h tw th := h2

/-- A cover-fit resize of any nonempty source produces exactly the target
dimensions. -/
theorem coverResize_eq (w h tw th : ℚ) (hw : 0 < w) (hh : 0 < h) :
    coverResize w h tw th = (tw, th) := by
  unfold coverResize
  rw [min_eq_right (le_mul_coverScale_left w h tw th hw),
      min_eq_right (le_mul_coverScale_right w h tw th hh)]

/-- The retained crop region fits inside the source and has the aspect ratio
of the target box, so the retained content is not distorted. -/
theorem coverCropRegion_fits (w h tw th : ℚ) (hw : 0 < w) (hh : 0 < h)
    (htw : 0 < tw) :
    (coverCropRegion w h tw th).1 ≤ w ∧ (coverCropRegion w h tw th).2 ≤ h ∧
      (coverCropRegion w h tw th).1 * th = (coverCropRegion w h tw th).2 * tw := by
  have hs : 0 < coverScale w h tw th := coverScale_pos w h tw th hw htw
  refine ⟨?_, ?_, ?_⟩
  · exact (div_le_iff₀ hs).mpr (le_mul_coverScale_left w h tw th hw)
  · exact (div_le_iff₀ hs).mpr (le_mul_coverScale_right w h tw th hh)
  · unfold coverCropRegion
    field_simp
    ring

/-- A deck of `k` slides whose end overlay shows exactly from loop index `k`
on and whose next control is always present; all startup phases succeed. -/
def deckEnv (k : Nat) : Env :=
  { outDirExists := true, cookieFound := false, presentFound := false,
    fullscrFound := true, nextAfterFirst := true,
    breakerAt := fun i => decide (k ≤ i), nextAt := fun _ => true }

/-- A deck whose end overlay never shows and whose next control disappears
from loop index `k` on; all startup phases succeed. -/
def vanishingNextEnv (k : Nat) : Env :=
  { outDirExists := true, cookieFound := true, presentFound := true,
    fullscrFound := true, nextAfterFirst := true,
    breakerAt := fun _ => false, nextAt := fun i => decide (i < k) }

/-- A deck whose viewer loads but whose next control never appears after the
first capture. -/
def noNextEnv : Env :=
  { outDirExists := true, cookieFound := false, presentFound := false,
    fullscrFound := true, nextAfterFirst := false,
    breakerAt := fun _ => false, nextAt := fun _ => false }

/-- A session whose viewer never becomes ready within the 30s bound. -/
def viewerStuckEnv : Env :=
  { outDirExists := false, cookieFound := true, presentFound := false,
    fullscrFound := false, nextAfterFirst := true,
    breakerAt := fun _ => false, nextAt := fun _ => true }

/-- Concrete arguments with only `--url` given. -/
def demoArgv : Argv :=
  { url := JsVal.str "https://prezi.com/p/demo/", out := JsVal.undefined,
    width := JsVal.undefined, height := JsVal.undefined }

/-- Prepending the capture of index 0 to captures of indices `1 … m` gives the
captures of indices `0 … m`. -/
theorem pngPath_range_shift (out : JsVal) (m : Nat) :
    pngPath out 0 :: (List.range m).map (fun j => pngPath out (j + 1)) =
      (List.range (m + 1)).map (pngPath out) := by
  rw [List.range_succ_eq_map]
  simp [List.map_map, Function.comp]

/-- C1: for every session that reaches the capture phase (a url was given and
the viewer became ready), the paths of the captured slides are exactly
`{out}/prezi-0.png, …, {out}/prezi-(m-1).png` for some `m` — a contiguous,
zero-based, monotonically increasing sequence of indices with no gaps and no
reuse, each path the pure function `pngPath` of the session output directory
and the index. -/
theorem c1_contiguous_indices (argv : Argv) (env : Env) (fuel : Nat)
    (hu : truthy (resolvePrezi argv) = true) (hf : env.fullscrFound = true) :
    ∃ m, capturedPaths (run argv env fuel).1 =
      (List.range m).map (pngPath (resolveOut argv.out)) := by
  rw [run_capturedPaths]
  simp only [hu, hf, Bool.true_eq_false, if_false]
  by_cases hn : env.nextAfterFirst = false
  · refine ⟨1, ?_⟩
    simp [hn, List.range_succ]
  · obtain ⟨m, hm⟩ := loopRun_capturedPaths_range env (resolveOut argv.out) fuel 0
    refine ⟨m + 1, ?_⟩
    rw [← pngPath_range_shift]
    simp only [hn, if_false, hm]
    congr 1
    apply List.map_congr_left
    intro j _
    congr 1
    omega

/-- C1 witness: a five-slide deck with default arguments produces a contiguous
zero-based sequence of output paths. -/
theorem c1_contiguous_indices_witness :
    ∃ m, capturedPaths (run demoArgv (deckEnv 5) 10).1 =
      (List.range m).map (pngPath (resolveOut demoArgv.out)) :=
  c1_contiguous_indices demoArgv (deckEnv 5) 10 (by decide) (by decide)

/-- C2: in the advance loop the end-of-deck overlay is checked before the
capture of the current index, so when it is present at loop index `n + 1` the
loop stops at once, capturing nothing; consequently a 5-slide deck whose end
marker appears only from would-be index 5 produces exactly the files
`prezi-0.png` through `prezi-4.png` and never captures index 5. -/
theorem c2_breaker_checked_before_capture :
    (∀ (env : Env) (out : JsVal) (fuel n : Nat), env.breakerAt (n + 1) = true →
        capturedPaths (loopRun env out (fuel + 1) n).1 = [] ∧
          (loopRun env out (fuel + 1) n).2 = Status.completed) ∧
      capturedPaths (run demoArgv (deckEnv 5) 10).1 =
          (List.range 5).map (pngPath (JsVal.str "img")) ∧
        (run demoArgv (deckEnv 5) 10).2 = Status.completed ∧
        pngPath (JsVal.str "img") 5 ∉ capturedPaths (run demoArgv (deckEnv 5) 10).1 := by
  refine ⟨?_, by decide, by decide, by decide⟩
  intro env out fuel n hb
  constructor <;> simp [loopRun, hb, capturedPaths]

/-- C2 witness: the breaker of the five-slide deck is present at loop index 6,
and there the loop terminates with no capture. -/
theorem c2_breaker_checked_before_capture_witness :
    capturedPaths (loopRun (deckEnv 5) (JsVal.str "img") 3 5).1 = [] ∧
      (loopRun (deckEnv 5) (JsVal.str "img") 3 5).2 = Status.completed :=
  c2_breaker_checked_before_capture.1 (deckEnv 5) (JsVal.str "img") 2 5 (by decide)

/-- C3: if the next control is absent right after capturing slide `k` (k ≥ 1)
and no termination condition fired earlier, the session terminates normally
with exactly the k+1 artifacts `prezi-0.png` … `prezi-k.png` and no further
capture is attempted. -/
theorem c3_next_absent_terminates (argv : Argv) (env : Env) (fuel k : Nat)
    (hu : truthy (resolvePrezi argv) = true) (hf : env.fullscrFound = true)
    (hn : env.nextAfterFirst = true) (hk : 1 ≤ k) (hfuel : k ≤ fuel)
    (hbr : ∀ i, 1 ≤ i → i ≤ k → env.breakerAt i = false)
    (hnx : ∀ i, 1 ≤ i → i < k → env.nextAt i = true)
    (hlast : env.nextAt k = false) :
    capturedPaths (run argv env fuel).1 =
        (List.range (k + 1)).map (pngPath (resolveOut argv.out)) ∧
      (run argv env fuel).2 = Status.completed := by
  obtain ⟨m, rfl⟩ : ∃ m, k = m + 1 := ⟨k - 1, by omega⟩
  have hs := loopRun_stops env (resolveOut argv.out) m 0 fuel (by omega)
    (fun i h1 h2 => hbr i (by omega) (by omega))
    (fun i h1 h2 => hnx i (by omega) (by omega))
    (by have h : 0 + m + 1 = m + 1 := by omega
        rw [h]
        exact hlast)
  constructor
  · rw [run_capturedPaths]
    simp only [hu, hf, hn, Bool.true_eq_false, if_false, hs.1]
    rw [← pngPath_range_shift]
    congr 1
    apply List.map_congr_left
    intro j _
    congr 1
    omega
  · rw [run_snd]
    simp [hu, hf, hn, hs.2]

/-- C3 witness: a deck whose next control disappears from loop index 3
produces exactly the four artifacts of indices 0 … 3 and completes. -/
theorem c3_next_absent_terminates_witness :
    capturedPaths (run demoArgv (vanishingNextEnv 3) 10).1 =
        (List.range (3 + 1)).map (pngPath (resolveOut demoArgv.out)) ∧
      (run demoArgv (vanishingNextEnv 3) 10).2 = Status.completed :=
  c3_next_absent_terminates demoArgv (vanishingNextEnv 3) 10 3 (by decide)
    (by decide) (by decide) (by decide) (by decide)
    (fun i h1 h2 => rfl)
    (fun i h1 h2 => by
      simp only [vanishingNextEnv, decide_eq_true_eq]
      omega)
    (by decide)

/-- A run that aborts on the viewer-ready timeout signals failure with a
nonzero exit status. -/
theorem run_mem_exitProcess (argv : Argv) (env : Env) (fuel : Nat)
    (hu : truthy (resolvePrezi argv) = true) (hf : env.fullscrFound = false) :
    Event.exitProcess 1 ∈ (run argv env fuel).1 := by
  simp [run, hu, hf]

/-- C4 counterexample: the viewer-ready wait is not the only phase where
absence of the awaited element is fatal — in a session whose viewer loads but
whose next control never appears after the first capture, the unguarded
`waitForSelector` fails the run (an unhandled rejection, not a normal
completion) and the browser is never released. -/
theorem c4_only_fatal_phase_counterexample :
    noNextEnv.fullscrFound = true ∧
      (run demoArgv noNextEnv 10).2 = Status.rejectedNextMissing ∧
      (run demoArgv noNextEnv 10).2 ≠ Status.completed ∧
      closeCount (run demoArgv noNextEnv 10).1 = 0 := by
  refine ⟨rfl, by decide, by decide, by decide⟩

/-- C4 (amended): if the viewer-ready wait times out, the session is aborted
with the browser released exactly once, a nonzero exit status, and zero output
files; this is the only phase whose element absence triggers a *handled* abort
with resource release — the unguarded wait for the next control after the
first capture is also fatal on absence, but through an unhandled failure that
never releases the browser. -/
theorem c4_viewer_timeout_abort (argv : Argv) (env : Env) (fuel : Nat)
    (hu : truthy (resolvePrezi argv) = true) :
    (env.fullscrFound = false →
      closeCount (run argv env fuel).1 = 1 ∧
        capturedPaths (run argv env fuel).1 = [] ∧
        (run argv env fuel).2 = Status.exitedViewerTimeout ∧
        Event.exitProcess 1 ∈ (run argv env fuel).1) ∧
      (env.fullscrFound = true → env.nextAfterFirst = false →
        (run argv env fuel).2 = Status.rejectedNextMissing ∧
          closeCount (run argv env fuel).1 = 0) := by
  constructor
  · intro hf
    refine ⟨?_, ?_, ?_, run_mem_exitProcess argv env fuel hu hf⟩
    · rw [run_closeCount]
      simp [hu, hf]
    · rw [run_capturedPaths]
      simp [hu, hf]
    · rw [run_snd]
      simp [hu, hf]
  · intro hf hn
    constructor
    · rw [run_snd]
      simp [hu, hf, hn]
    · rw [run_closeCount]
      simp [hu, hf, hn]

/-- C4 witness: a session whose viewer never becomes ready releases the
browser exactly once, captures nothing, and exits with status 1. -/
theorem c4_viewer_timeout_abort_witness :
    closeCount (run demoArgv viewerStuckEnv 10).1 = 1 ∧
      capturedPaths (run demoArgv viewerStuckEnv 10).1 = [] ∧
      (run demoArgv viewerStuckEnv 10).2 = Status.exitedViewerTimeout ∧
      Event.exitProcess 1 ∈ (run demoArgv viewerStuckEnv 10).1 :=
  (c4_viewer_timeout_abort demoArgv viewerStuckEnv 10 (by decide)).1 rfl

/-- C5: for any raster of positive dimensions and any destination path, the
postprocessor writes to that path, overwriting, a raster of exactly 1280×720;
the retained crop region fits inside the source and keeps the 1280:720 aspect
ratio, so the remaining content is not distorted. -/
theorem c5_postprocessor_cover_1280x720 (w h : ℚ) (p : String)
    (hw : 0 < w) (hh : 0 < h) :
    (captureCroppedScreenshot ⟨w, h⟩ p).image.width = 1280 ∧
      (captureCroppedScreenshot ⟨w, h⟩ p).image.height = 720 ∧
      (captureCroppedScreenshot ⟨w, h⟩ p).path = p ∧
      (captureCroppedScreenshot ⟨w, h⟩ p).overwrite = true ∧
      (coverCropRegion w h 1280 720).1 ≤ w ∧
      (coverCropRegion w h 1280 720).2 ≤ h ∧
      (coverCropRegion w h 1280 720).1 * 720 =
        (coverCropRegion w h 1280 720).2 * 1280 := by
  have hr := coverResize_eq w h 1280 720 hw hh
  have hc := coverCropRegion_fits w h 1280 720 hw hh (by norm_num)
  exact ⟨by simp [captureCroppedScreenshot, hr], by simp [captureCroppedScreenshot, hr],
    rfl, rfl, hc.1, hc.2.1, hc.2.2⟩

/-- C5 witness: a 595×842 screenshot is written as exactly 1280×720 with an
undistorted retained region. -/
theorem c5_postprocessor_cover_1280x720_witness :
    (captureCroppedScreenshot ⟨595, 842⟩ "img/prezi-0.png").image.width = 1280 ∧
      (captureCroppedScreenshot ⟨595, 842⟩ "img/prezi-0.png").image.height = 720 ∧
      (captureCroppedScreenshot ⟨595, 842⟩ "img/prezi-0.png").path = "img/prezi-0.png" ∧
      (captureCroppedScreenshot ⟨595, 842⟩ "img/prezi-0.png").overwrite = true ∧
      (coverCropRegion 595 842 1280 720).1 ≤ 595 ∧
      (coverCropRegion 595 842 1280 720).2 ≤ 842 ∧
      (coverCropRegion 595 842 1280 720).1 * 720 =
        (coverCropRegion 595 842 1280 720).2 * 1280 :=
  c5_postprocessor_cover_1280x720 595 842 "img/prezi-0.png" (by norm_num) (by norm_num)

/-- C6: with `--url` absent (or any falsy value) the script throws the fatal
error "PREZI NOT FOUND. Please provide --url argument." and performs no effect
at all — in particular no browser is ever launched and nothing is captured. -/
theorem c6_missing_url_aborts (argv : Argv) (env : Env) (fuel : Nat)
    (hu : truthy argv.url = false) :
    run argv env fuel = ([], Status.thrown urlErrorMsg) ∧
      Event.launchBrowser ∉ (run argv env fuel).1 ∧
      capturedPaths (run argv env fuel).1 = [] := by
  have hp : truthy (resolvePrezi argv) = false := by
    unfold resolvePrezi jsOr
    rw [hu]
    simp [truthy]
  have hr : run argv env fuel = ([], Status.thrown urlErrorMsg) := by
    simp [run, hp]
  refine ⟨hr, ?_, ?_⟩
  · rw [hr]
    simp
  · rw [hr]
    simp [capturedPaths]

/-- C6 witness: a run invoked without `--url` throws and launches nothing. -/
theorem c6_missing_url_aborts_witness :
    run ⟨JsVal.undefined, JsVal.undefined, JsVal.undefined, JsVal.undefined⟩
          (deckEnv 5) 10 = ([], Status.thrown urlErrorMsg) ∧
      Event.launchBrowser ∉
        (run ⟨JsVal.undefined, JsVal.undefined, JsVal.undefined, JsVal.undefined⟩
          (deckEnv 5) 10).1 ∧
      capturedPaths
        (run ⟨JsVal.undefined, JsVal.undefined, JsVal.undefined, JsVal.undefined⟩
          (deckEnv 5) 10).1 = [] :=
  c6_missing_url_aborts _ (deckEnv 5) 10 rfl

/-- The advance loop reads the environment only through the breaker and next
predicates. -/
theorem loopRun_congr (env env' : Env) (hb : env.breakerAt = env'.breakerAt)
    (hn : env.nextAt = env'.nextAt) (out : JsVal) :
    ∀ fuel n, loopRun env out fuel n = loopRun env' out fuel n := by
  intro fuel
  induction fuel with
  | zero => intro n; rfl
  | succ fuel ih =>
    intro n
    simp [loopRun, hb, hn, ih (n + 1)]

/-- C7: the consent and present phases are best-effort and never fatal: the
control is clicked exactly when it was found within its bound, and neither the
final status nor the captured outputs depend in any way on whether either
prompt appeared — a run without the prompts proceeds identically to one where
they are present and dismissed. -/
theorem c7_best_effort_phases (argv : Argv) (env : Env) (fuel : Nat)
    (b1 b2 b1' b2' : Bool) :
    ((run argv { env with cookieFound := b1, presentFound := b2 } fuel).2 =
        (run argv { env with cookieFound := b1', presentFound := b2' } fuel).2) ∧
      (capturedPaths
          (run argv { env with cookieFound := b1, presentFound := b2 } fuel).1 =
        capturedPaths
          (run argv { env with cookieFound := b1', presentFound := b2' } fuel).1) ∧
      (truthy (resolvePrezi argv) = true →
        ((Event.click cookieAcceptBtn ∈ (run argv env fuel).1 ↔
            env.cookieFound = true) ∧
          (Event.click presentDiv ∈ (run argv env fuel).1 ↔
            env.presentFound = true))) := by
  have hcongr : loopRun { env with cookieFound := b1, presentFound := b2 }
        (resolveOut argv.out) fuel 0 =
      loopRun { env with cookieFound := b1', presentFound := b2' }
        (resolveOut argv.out) fuel 0 :=
    loopRun_congr { env with cookieFound := b1, presentFound := b2 }
      { env with cookieFound := b1', presentFound := b2' } rfl rfl
      (resolveOut argv.out) fuel 0
  have hne : cookieAcceptBtn ≠ presentDiv := by decide
  refine ⟨?_, ?_, ?_⟩
  · rw [run_snd, run_snd]
    simp [hcongr]
  · rw [run_capturedPaths, run_capturedPaths]
    simp [hcongr]
  · intro hu
    constructor
    · rw [run_click_iff argv env fuel hu cookieAcceptBtn (by decide) (by decide)]
      simp [hne]
    · rw [run_click_iff argv env fuel hu presentDiv (by decide) (by decide)]
      simp [Ne.symm hne]

/-- C7 witness: on the five-slide deck (no prompts found) neither button is
clicked, matching the found-flags of the environment. -/
theorem c7_best_effort_phases_witness :
    (Event.click cookieAcceptBtn ∈ (run demoArgv (deckEnv 5) 10).1 ↔
        (deckEnv 5).cookieFound = true) ∧
      (Event.click presentDiv ∈ (run demoArgv (deckEnv 5) 10).1 ↔
        (deckEnv 5).presentFound = true) :=
  (c7_best_effort_phases demoArgv (deckEnv 5) 10 true true false false).2.2 (by decide)

/-- C8: with the arguments absent, the defaults are output directory "img"
(created when it does not exist), viewport width 595 and height 842, and the
page viewport is configured with exactly those session dimensions and
deviceScaleFactor 1. -/
theorem c8_cli_defaults (env : Env) (fuel : Nat) (u : String)
    (hu : truthy (JsVal.str u) = true) :
    resolveOut JsVal.undefined = JsVal.str "img" ∧
      resolveWidth JsVal.undefined = JsVal.num 595 ∧
      resolveHeight JsVal.undefined = JsVal.num 842 ∧
      Event.setViewport (JsVal.num 595) (JsVal.num 842) 1 ∈
        (run ⟨JsVal.str u, JsVal.undefined, JsVal.undefined, JsVal.undefined⟩
          env fuel).1 ∧
      (env.outDirExists = false →
        Event.mkdir "img" ∈
          (run ⟨JsVal.str u, JsVal.undefined, JsVal.undefined, JsVal.undefined⟩
            env fuel).1) := by
  have hu' : truthy (resolvePrezi
      ⟨JsVal.str u, JsVal.undefined, JsVal.undefined, JsVal.undefined⟩) = true := by
    unfold resolvePrezi jsOr
    rw [hu]
    simpa using hu
  refine ⟨rfl, rfl, rfl, ?_, ?_⟩
  · exact run_mem_setViewport _ env fuel hu'
  · intro hd
    exact run_mem_mkdir _ env fuel hu' hd

/-- C8 witness: with only a url given, the defaults run sets the 595×842
viewport and creates the missing directory "img". -/
theorem c8_cli_defaults_witness :
    resolveOut JsVal.undefined = JsVal.str "img" ∧
      resolveWidth JsVal.undefined = JsVal.num 595 ∧
      resolveHeight JsVal.undefined = JsVal.num 842 ∧
      Event.setViewport (JsVal.num 595) (JsVal.num 842) 1 ∈
        (run ⟨JsVal.str "u", JsVal.undefined, JsVal.undefined, JsVal.undefined⟩
          viewerStuckEnv 10).1 ∧
      (viewerStuckEnv.outDirExists = false →
        Event.mkdir "img" ∈
          (run ⟨JsVal.str "u", JsVal.undefined, JsVal.undefined, JsVal.undefined⟩
            viewerStuckEnv 10).1) :=
  c8_cli_defaults viewerStuckEnv 10 "u" (by decide)

/-- C9: the guarded fallback for a missing next control exists only inside the
advance loop (indices k ≥ 1); the wait for the next control after the first
capture (index 0) has no local error handling, so when the control never
appears there the session ends in an uncaught failure with only the index-0
artifact captured and without the browser ever being released. -/
theorem c9_unguarded_first_next (argv : Argv) (env : Env) (fuel : Nat)
    (hu : truthy (resolvePrezi argv) = true) (hf : env.fullscrFound = true)
    (hn : env.nextAfterFirst = false) :
    (run argv env fuel).2 = Status.rejectedNextMissing ∧
      capturedPaths (run argv env fuel).1 = [pngPath (resolveOut argv.out) 0] ∧
      closeCount (run argv env fuel).1 = 0 := by
  refine ⟨?_, ?_, ?_⟩
  · rw [run_snd]
    simp [hu, hf, hn]
  · rw [run_capturedPaths]
    simp [hu, hf, hn]
  · rw [run_closeCount]
    simp [hu, hf, hn]

/-- C9 witness: the deck whose next control never appears after slide 0 ends
abnormally, with one artifact and the browser left open. -/
theorem c9_unguarded_first_next_witness :
    (run demoArgv noNextEnv 10).2 = Status.rejectedNextMissing ∧
      capturedPaths (run demoArgv noNextEnv 10).1 =
        [pngPath (resolveOut demoArgv.out) 0] ∧
      closeCount (run demoArgv noNextEnv 10).1 = 0 :=
  c9_unguarded_first_next demoArgv noNextEnv 10 (by decide) (by decide) (by decide)

/-- C10: defaulting uses falsiness rather than absence, so explicitly passing
falsy values behaves exactly as omitting the arguments: `--width 0` resolves
to 595, `--height 0` to 842, `--out ""` to "img", and the whole run with these
falsy arguments equals the run with them omitted. -/
theorem c10_falsy_args_default (v : JsVal) (env : Env) (fuel : Nat) :
    run ⟨v, JsVal.str "", JsVal.num 0, JsVal.num 0⟩ env fuel =
        run ⟨v, JsVal.undefined, JsVal.undefined, JsVal.undefined⟩ env fuel ∧
      resolveWidth (JsVal.num 0) = JsVal.num 595 ∧
      resolveHeight (JsVal.num 0) = JsVal.num 842 ∧
      resolveOut (JsVal.str "") = JsVal.str "img" :=
  ⟨rfl, rfl, rfl, rfl⟩

end PreziScraper
